import Mathlib

/-!
Shallow embedding of the CarND capstone motion-planning stack
(`ros/src/waypoint_updater/waypoint_updater.py` and
`ros/src/twist_controller/dbw_node.py`), with theorems checking the
natural-language specification against the code.

Python floats are modelled as real numbers, `math.sqrt` as `Real.sqrt`,
Python float division as a checked division that faults (like Python's
`ZeroDivisionError`) when the denominator is zero, and Python's negative
list indexing by an explicit indexing function `pyGet`.
-/

noncomputable section

namespace CarND

/-! ## Geometry and the waypoint data model -/

/-- A 3-D position, as in `geometry_msgs` `Point` (fields `x`, `y`, `z`). -/
structure Pos3 where
  x : ℝ
  y : ℝ
  z : ℝ

/-- A waypoint of the route: an immutable position plus the mutable target
velocity stored at `waypoint.twist.twist.linear.x`. -/
structure Waypoint where
  pos : Pos3
  vel : ℝ

/-- The origin, used as the out-of-range default for list indexing (all
accesses in the embedded code are in range). -/
def origin3 : Pos3 := ⟨0, 0, 0⟩

/-- Default waypoint for out-of-range list indexing. -/
def defaultWp : Waypoint := ⟨origin3, 0⟩

/-- `LOOKAHEAD_WPS = 50` (waypoint_updater.py line 28). -/
def LOOKAHEAD_WPS : ℕ := 50

/-- `MIN_LOOKAHEAD_DIST = 10` (line 29). -/
def MIN_LOOKAHEAD_DIST : ℝ := 10

/-- `COMFORT_DECEL = 3` (line 30). -/
def COMFORT_DECEL : ℝ := 3

/-- `COMFORT_ACCEL = 5` (line 31). -/
def COMFORT_ACCEL : ℝ := 5

/-- The 2-D segment length `dl` used in `generate_keep_trajectory` and
`generate_stop_trajectory` (lines 185, 208):
`math.sqrt((a.x-b.x)**2 + (a.y-b.y)**2)`. -/
def dl2 (a b : Pos3) : ℝ := Real.sqrt ((a.x - b.x) ^ 2 + (a.y - b.y) ^ 2)

/-- The 3-D segment length `dl` used in `distance` (line 231):
`math.sqrt((a.x-b.x)**2 + (a.y-b.y)**2 + (a.z-b.z)**2)`. -/
def dl3 (a b : Pos3) : ℝ :=
  Real.sqrt ((a.x - b.x) ^ 2 + (a.y - b.y) ^ 2 + (a.z - b.z) ^ 2)

/-- Python list indexing `l[i]` with an `int` index: a negative index counts
from the end (`l[-1]` is the last element).  All uses in the embedded code
are in range, so the default is never hit there. -/
def pyGet {α : Type} (l : List α) (i : ℤ) (d : α) : α :=
  if i < 0 then l.getD ((l.length : ℤ) + i).toNat d else l.getD i.toNat d

/-- Python indexing into a position list, with the origin as default. -/
def pyGetP (l : List Pos3) (i : ℤ) : Pos3 := pyGet l i origin3

/-- Python float division: raises `ZeroDivisionError` when the denominator
is zero (Python raises even for float operands). -/
def pydiv (a b : ℝ) : Except Unit ℝ :=
  if b = 0 then Except.error () else Except.ok (a / b)

/-! ## The WaypointUpdater class surface (for claim C1) -/

/-- The attribute names of `WaypointUpdater` that the constructor refers to,
plus every method the class body defines (lines 34-241). -/
inductive UpdaterAttr
  | pose_cb
  | waypoints_cb
  | targetv_cb
  | velocity_cb
  | traffic_cb
  | obstacle_cb
  | dbw_cb
  | loop
  | get_closest_waypoint_idx
  | publish_waypoints
  | handle_final_waypoints
  | generate_keep_trajectory
  | generate_stop_trajectory
  | get_waypoint_velocity
  | set_waypoint_velocity
  | distance
  deriving DecidableEq

/-- The methods actually defined in the `WaypointUpdater` class body
(waypoint_updater.py lines 76-241).  There is no `dbw_cb` definition. -/
def waypointUpdaterMethods : List UpdaterAttr :=
  [UpdaterAttr.loop, UpdaterAttr.get_closest_waypoint_idx,
   UpdaterAttr.publish_waypoints, UpdaterAttr.pose_cb,
   UpdaterAttr.handle_final_waypoints, UpdaterAttr.waypoints_cb,
   UpdaterAttr.targetv_cb, UpdaterAttr.velocity_cb, UpdaterAttr.traffic_cb,
   UpdaterAttr.obstacle_cb, UpdaterAttr.generate_keep_trajectory,
   UpdaterAttr.generate_stop_trajectory, UpdaterAttr.get_waypoint_velocity,
   UpdaterAttr.set_waypoint_velocity, UpdaterAttr.distance]

/-- The bound-method handlers `self.<name>` that `__init__` passes to
`rospy.Subscriber`, in source order (lines 64-72), each of which Python
resolves on the instance at the subscription call, *before* `self.loop()`
runs (line 74). -/
def initSubscriberHandlers : List UpdaterAttr :=
  [UpdaterAttr.pose_cb, UpdaterAttr.waypoints_cb, UpdaterAttr.targetv_cb,
   UpdaterAttr.velocity_cb, UpdaterAttr.traffic_cb, UpdaterAttr.dbw_cb]

/-- Outcome of evaluating `WaypointUpdater.__init__`: either every handler
resolved and `self.loop()` was reached, or attribute resolution raised
`AttributeError` at the first handler the class does not define. -/
inductive InitOutcome
  | started
  | attrError (missing : UpdaterAttr)
  deriving DecidableEq

/-- `WaypointUpdater.__init__`, reduced to the part that can fault: resolve
each subscriber handler in order; the first name not defined by the class
raises `AttributeError`; if all resolve, control reaches `self.loop()`. -/
def waypointUpdaterInit : InitOutcome :=
  match initSubscriberHandlers.find? (fun h => !(waypointUpdaterMethods.contains h)) with
  | some h => InitOutcome.attrError h
  | none => InitOutcome.started

/-! ## The spatial locator (`get_closest_waypoint_idx`, lines 82-100) -/

/-- Squared Euclidean distance between 2-D points. -/
def sqDist (a b : ℝ × ℝ) : ℝ := (a.1 - b.1) ^ 2 + (a.2 - b.2) ^ 2

/-- Componentwise difference of 2-D vectors (models `np.array` subtraction). -/
def sub2 (a b : ℝ × ℝ) : ℝ × ℝ := (a.1 - b.1, a.2 - b.2)

/-- 2-D dot product (models `np.dot`). -/
def dot2 (a b : ℝ × ℝ) : ℝ := a.1 * b.1 + a.2 * b.2

/-- Model of `self.waypoints_tree.query([x, y], 1)[1]`: the KDTree returns
the index of a waypoint nearest to the query point, embedded here as the
brute-force first argmin of the (squared) Euclidean distance. -/
def nearestIdx (pts : List (ℝ × ℝ)) (q : ℝ × ℝ) : ℕ :=
  (List.range pts.length).foldl
    (fun best i =>
      if sqDist (pts.getD i (0, 0)) q < sqDist (pts.getD best (0, 0)) q then i else best)
    0

/-- `WaypointUpdater.get_closest_waypoint_idx` (lines 82-100), embedded from
the source: nearest index from the KDTree, previous coordinate via Python
indexing `waypoints_2d[closest_idx - 1]` (which wraps to the last element
when `closest_idx = 0`), the hyperplane dot-product test, and the advance
`(closest_idx + 1) % len(waypoints_2d)`. -/
def get_closest_waypoint_idx (pts : List (ℝ × ℝ)) (q : ℝ × ℝ) : ℕ :=
  let closest_idx := nearestIdx pts q
  let closest_coord := pts.getD closest_idx (0, 0)
  let prev_coord := pyGet pts ((closest_idx : ℤ) - 1) (0, 0)
  let val := dot2 (sub2 closest_coord prev_coord) (sub2 q closest_coord)
  if 0 < val then (closest_idx + 1) % pts.length else closest_idx

/-- The spec's brute-force nearest-ahead computation (spec section 4.1 and
claim C2's wording): take the nearest waypoint `c`, let `p` be the previous
route waypoint at cyclic index `(c + n - 1) % n`, form the dot product of
`(c - p)` with `(vehiclePos - c)`, and advance to `(c + 1) mod n` exactly
when it is positive. -/
def nearestAheadIndex (pts : List (ℝ × ℝ)) (q : ℝ × ℝ) : ℕ :=
  let closest_idx := nearestIdx pts q
  let closest_coord := pts.getD closest_idx (0, 0)
  let prev_coord := pts.getD ((closest_idx + pts.length - 1) % pts.length) (0, 0)
  let val := dot2 (sub2 closest_coord prev_coord) (sub2 q closest_coord)
  if 0 < val then (closest_idx + 1) % pts.length else closest_idx

/-! ## The trajectory generators (lines 183-220) -/

/-- The per-iteration segment length `dl(wp0, wp1)` with
`wp0 = waypoints[i-1]` and `wp1 = waypoints[i]` (lines 189-190, 215-216):
at `i = 0` Python's negative indexing makes `wp0` the *last* waypoint of the
slice. -/
def segDl2 (P : List Pos3) (i : ℕ) : ℝ := dl2 (pyGetP P ((i : ℤ) - 1)) (pyGetP P i)

/-- The velocity-write loop shared by both generators: starting from
`cur_v`, visit the index list in order, write `step cur i` at each index,
and carry it forward.  Returns exactly the written velocities. -/
def velWalk (step : ℝ → ℕ → ℝ) : ℝ → List ℕ → List ℝ
  | _, [] => []
  | cur, i :: rest => step cur i :: velWalk step (step cur i) rest

/-- One iteration of `generate_keep_trajectory`'s loop (line 191):
`cur_v = min(self.TARGET_V, math.sqrt(cur_v*cur_v + 2*a*dl(wp0, wp1)))`
with `a = COMFORT_ACCEL`. -/
def keepStep (P : List Pos3) (TARGET_V : ℝ) (cur : ℝ) (i : ℕ) : ℝ :=
  min TARGET_V (Real.sqrt (cur * cur + 2 * COMFORT_ACCEL * segDl2 P i))

/-- The velocities written by `generate_keep_trajectory` over the slice. -/
def keepVels (P : List Pos3) (TARGET_V v : ℝ) : List ℝ :=
  velWalk (keepStep P TARGET_V) v (List.range P.length)

/-- `set_waypoint_velocity` applied along the whole slice: each waypoint
keeps its position and receives the corresponding computed velocity. -/
def setVels (wps : List Waypoint) (vels : List ℝ) : List Waypoint :=
  List.zipWith (fun w u => { w with vel := u }) wps vels

/-- `WaypointUpdater.generate_keep_trajectory` (lines 183-194): walk the
slice accelerating at `COMFORT_ACCEL`, capping at `self.TARGET_V`, writing
each velocity into the waypoint list. -/
def generate_keep_trajectory (TARGET_V v : ℝ) (wps : List Waypoint) : List Waypoint :=
  setVels wps (keepVels (wps.map Waypoint.pos) TARGET_V v)

/-- One iteration of `generate_stop_trajectory`'s loop (line 217):
`cur_v = math.sqrt(max(0, cur_v*cur_v - 2*a*dl(wp0, wp1)))`. -/
def stopStep (P : List Pos3) (a : ℝ) (cur : ℝ) (i : ℕ) : ℝ :=
  Real.sqrt (max 0 (cur * cur - 2 * a * segDl2 P i))

/-- The velocities written by `generate_stop_trajectory` over the slice. -/
def stopVels (P : List Pos3) (a v : ℝ) : List ℝ :=
  velWalk (stopStep P a) v (List.range P.length)

/-- The deceleration choice of `generate_stop_trajectory` (lines 201-207):
if the straight-line distance from the vehicle to the stop line is below
3 m, `a = 1`; otherwise `t = (2*stop_dist) / (self.v)` — an *unchecked*
division by the current velocity — and
`a = min(COMFORT_DECEL, self.v / max(0.001, t))`. -/
def stopAccel (v : ℝ) (p : Pos3) (stop_x stop_y sd : ℝ) : Except Unit ℝ :=
  let stop_line_dist := Real.sqrt ((p.x - stop_x) ^ 2 + (p.y - stop_y) ^ 2)
  if stop_line_dist < 3 then Except.ok 1
  else
    (pydiv (2 * sd) v).bind fun t =>
      (pydiv v (max 0.001 t)).map fun q => min COMFORT_DECEL q

/-- `WaypointUpdater.generate_stop_trajectory` (lines 196-220): choose the
deceleration `a`, then walk the slice decreasing the velocity, writing each
value into the waypoint list; returns `(a, waypoints)`.  The result is an
`Except` because the kinematic branch divides by `self.v` unchecked. -/
def generate_stop_trajectory (v : ℝ) (p : Pos3) (stop_x stop_y : ℝ)
    (wps : List Waypoint) (sd : ℝ) : Except Unit (ℝ × List Waypoint) :=
  (stopAccel v p stop_x stop_y sd).map fun a =>
    (a, setVels wps (stopVels (wps.map Waypoint.pos) a v))

/-- Cumulative 2-D slice distance through index `k`, including the
wrap-around segment `dl(waypoints[-1], waypoints[0])` that the loops use at
`i = 0`.  Used to state the amended claim C6. -/
def cumDl (P : List Pos3) (k : ℕ) : ℝ := ∑ i in Finset.range (k + 1), segDl2 P i

/-! ## Route distance (`WaypointUpdater.distance`, lines 228-241) -/

/-- The 3-D segment length between route waypoints `i` and `i+1`. -/
def seg3 (wps : List Waypoint) (i : ℕ) : ℝ :=
  dl3 (wps.getD i defaultWp).pos (wps.getD (i + 1) defaultWp).pos

/-- `WaypointUpdater.distance` (lines 228-241): for `wp1 <= wp2` the sum of
segment lengths from `wp1` to `wp2`; otherwise the sum from `wp1` to the
route end (`range(wp1, N-1)`) plus the sum from the route start to `wp2`
(`range(wp2)`). -/
def distance (wps : List Waypoint) (wp1 wp2 : ℕ) : ℝ :=
  if wp1 ≤ wp2 then ∑ i in Finset.Ico wp1 wp2, seg3 wps i
  else (∑ i in Finset.Ico wp1 (wps.length - 1), seg3 wps i)
    + ∑ i in Finset.range wp2, seg3 wps i

/-- Total polyline length of a position list (the spec side of claim C8:
"sum of segment lengths" of a contiguous stretch of the route). -/
def pathLength : List Pos3 → ℝ
  | [] => 0
  | [_] => 0
  | a :: b :: rest => dl3 a b + pathLength (b :: rest)

/-! ## The planning tick (`handle_final_waypoints`, lines 116-152) -/

/-- The instance fields of `WaypointUpdater` read by a planning tick
(lines 39-52): pose and route snapshots, current velocity `v`, cruise
target `TARGET_V`, and the stop hint (`-1` meaning "none"). -/
structure UpdaterState where
  vehicle_position : Option Pos3
  waypoints : Option (List Waypoint)
  v : ℝ
  TARGET_V : ℝ
  stop_waypoint : ℤ
  stop_x : ℝ
  stop_y : ℝ

/-- Outcome of one `handle_final_waypoints` tick: skipped (missing route or
pose), faulted (the `ZeroDivisionError` of the stop generator), or planned
with the published `stop_a` value and the published trajectory. -/
inductive PlanResult
  | skipped
  | failed
  | planned (stop_a : ℝ) (traj : List Waypoint)

/-- `WaypointUpdater.handle_final_waypoints` (lines 116-152): skip when the
route or pose is missing (or the route empty — Python's `not self.waypoints`);
otherwise locate the nearest-ahead index, slice the horizon, and when a stop
hint is set compare the route distance to the stop waypoint against
`max(MIN_LOOKAHEAD_DIST, 0.5*COMFORT_DECEL*(v/COMFORT_DECEL)^2)` to choose
between the stop and keep generators; `stop_a = -1` is published on the
keep path. -/
def plan (s : UpdaterState) : PlanResult :=
  match s.waypoints, s.vehicle_position with
  | some wps, some p =>
    if wps.isEmpty then PlanResult.skipped
    else
      let next_wp := get_closest_waypoint_idx (wps.map fun w => (w.pos.x, w.pos.y)) (p.x, p.y)
      let final_waypoints := (wps.drop next_wp).take LOOKAHEAD_WPS
      if s.stop_waypoint ≠ -1 then
        let stop_dist := distance wps next_wp s.stop_waypoint.toNat
        let lookahead_t := s.v / COMFORT_DECEL
        let lookahead_dist := 0.5 * COMFORT_DECEL * lookahead_t * lookahead_t
        if stop_dist ≤ max MIN_LOOKAHEAD_DIST lookahead_dist then
          match generate_stop_trajectory s.v p s.stop_x s.stop_y final_waypoints stop_dist with
          | Except.ok (a, traj) => PlanResult.planned a traj
          | Except.error _ => PlanResult.failed
        else PlanResult.planned (-1) (generate_keep_trajectory s.TARGET_V s.v final_waypoints)
      else PlanResult.planned (-1) (generate_keep_trajectory s.TARGET_V s.v final_waypoints)
  | _, _ => PlanResult.skipped

/-! ## The actuation node tick (`dbw_node.py`, lines 99-136) -/

/-- The instance fields of `DBWNode` read by a control-loop tick
(dbw_node.py lines 52-59). -/
structure DBWState where
  prev_time : ℝ
  dt : ℝ
  current_linear_v : ℝ
  goal_linear_v : ℝ
  goal_angular_v : ℝ
  dbw_enabled : Bool
  stop_a : ℝ

/-- One actuation message published by `DBWNode.publish` (lines 120-136). -/
inductive DBWCommand
  | throttleCmd (enable : Bool) (pedal_cmd : ℝ)
  | steeringCmd (enable : Bool) (steering_wheel_angle_cmd : ℝ)
  | brakeCmd (enable : Bool) (pedal_cmd : ℝ)

/-- `DBWNode.publish` (lines 120-136): one throttle, one steering and one
brake command, each with `enable = True`, in source order. -/
def dbwPublish (throttle brake steer : ℝ) : List DBWCommand :=
  [DBWCommand.throttleCmd true throttle, DBWCommand.steeringCmd true steer,
   DBWCommand.brakeCmd true brake]

/-- One iteration of `DBWNode.loop` (lines 99-118): update the tick timing
(`prev_time = -1` is the "no previous timestamp" sentinel), then compute and
publish actuation commands *only* when `dbw_enabled` holds.  The controller
(`twist_controller.Controller.control`, not part of this repository's two
source files) is passed in as an opaque function of the same six arguments.
Returns the updated state and the list of published commands. -/
def dbwTick (control : Bool → ℝ → ℝ → ℝ → ℝ → ℝ → ℝ × ℝ × ℝ) (now : ℝ)
    (s : DBWState) : DBWState × List DBWCommand :=
  let s1 := if s.prev_time ≠ -1
    then { s with dt := now - s.prev_time, prev_time := now }
    else { s with prev_time := now }
  if s1.dbw_enabled then
    let c := control s1.dbw_enabled s1.goal_linear_v s1.goal_angular_v s1.stop_a
      s1.current_linear_v s1.dt
    (s1, dbwPublish c.1 c.2.1 c.2.2)
  else (s1, [])

/-! ## Concrete inputs used by witnesses and counterexamples -/

/-- A small square route: four waypoints at the corners of a 4 m square,
all at `z = 0`, base velocity 0. -/
def demoWps : List Waypoint :=
  [⟨⟨0, 0, 0⟩, 0⟩, ⟨⟨4, 0, 0⟩, 0⟩, ⟨⟨4, 4, 0⟩, 0⟩, ⟨⟨0, 4, 0⟩, 0⟩]

/-- The demo vehicle position: at the first waypoint of the square. -/
def demoVehicle : Pos3 := ⟨0, 0, 0⟩

/-- The 2-D projections of the demo route. -/
def demo2d : List (ℝ × ℝ) := [(0, 0), (4, 0), (4, 4), (0, 4)]

/-- The trajectory that `generate_stop_trajectory` produces on the demo
route at `v = 10`, `a = 3` (velocities √76, √52, √28, 2). -/
def demoStopTraj : List Waypoint :=
  setVels demoWps [Real.sqrt 76, Real.sqrt 52, Real.sqrt 28, 2]

/-- A planning-tick state for the demo route: stop hint at route index 3,
current velocity 10, stop line at `(0, 4)`. -/
def demoState : UpdaterState :=
  { vehicle_position := some demoVehicle
    waypoints := some demoWps
    v := 10
    TARGET_V := 11
    stop_waypoint := 3
    stop_x := 0
    stop_y := 4 }

/-- An actuation-node state with control authority disabled. -/
def demoDBWState : DBWState :=
  { prev_time := -1
    dt := 0.02
    current_linear_v := 3
    goal_linear_v := 5
    goal_angular_v := 0
    dbw_enabled := false
    stop_a := -1 }

/-- A trivial stand-in for the opaque controller function. -/
def demoControl : Bool → ℝ → ℝ → ℝ → ℝ → ℝ → ℝ × ℝ × ℝ :=
  fun _ _ _ _ _ _ => (0, 0, 0)

/-! ## Helper lemmas -/

theorem velWalk_length (step : ℝ → ℕ → ℝ) :
    ∀ (l : List ℕ) (c : ℝ), (velWalk step c l).length = l.length := by
  intro l
  induction l with
  | nil => intro c; rfl
  | cons i rest ih => intro c; simp [velWalk, ih]

theorem velWalk_mem (step : ℝ → ℕ → ℝ) (Q : ℝ → Prop) (hQ : ∀ c i, Q (step c i)) :
    ∀ (l : List ℕ) (c : ℝ), ∀ x ∈ velWalk step c l, Q x := by
  intro l
  induction l with
  | nil => intro c x hx; simp [velWalk] at hx
  | cons i rest ih =>
    intro c x hx
    rw [velWalk] at hx
    rcases List.mem_cons.mp hx with h | h
    · exact h ▸ hQ c i
    · exact ih _ x h

theorem velWalk_chain (step : ℝ → ℕ → ℝ) (Q : ℝ → Prop) (R : ℝ → ℝ → Prop)
    (hQ : ∀ c i, Q (step c i)) (hR : ∀ c i, Q c → R c (step c i)) :
    ∀ (l : List ℕ) (c : ℝ), List.Chain' R (velWalk step c l) := by
  intro l
  induction l with
  | nil => intro c; simp [velWalk]
  | cons i rest ih =>
    intro c
    rw [velWalk]
    cases rest with
    | nil => simp [velWalk]
    | cons j rest2 =>
      rw [velWalk]
      refine List.Chain'.cons (hR _ _ (hQ c i)) ?_
      have := ih (step c i)
      rwa [velWalk] at this

theorem setVels_map_vel :
    ∀ (wps : List Waypoint) (vl : List ℝ), vl.length = wps.length →
      (setVels wps vl).map Waypoint.vel = vl := by
  intro wps
  induction wps with
  | nil =>
    intro vl h
    rw [List.length_nil, List.length_eq_zero] at h
    subst h
    rfl
  | cons w t ih =>
    intro vl h
    cases vl with
    | nil => simp at h
    | cons u ul =>
      simp only [setVels, List.zipWith_cons_cons, List.map_cons]
      have := ih ul (by simpa using h)
      rw [setVels] at this
      rw [this]

theorem setVels_map_pos :
    ∀ (wps : List Waypoint) (vl : List ℝ), vl.length = wps.length →
      (setVels wps vl).map Waypoint.pos = wps.map Waypoint.pos := by
  intro wps
  induction wps with
  | nil =>
    intro vl h
    rw [List.length_nil, List.length_eq_zero] at h
    subst h
    rfl
  | cons w t ih =>
    intro vl h
    cases vl with
    | nil => simp at h
    | cons u ul =>
      simp only [setVels, List.zipWith_cons_cons, List.map_cons]
      have := ih ul (by simpa using h)
      rw [setVels] at this
      rw [this]

theorem setVels_setVels :
    ∀ (wps : List Waypoint) (vl : List ℝ),
      setVels (setVels wps vl) vl = setVels wps vl := by
  intro wps
  induction wps with
  | nil => intro vl; rfl
  | cons w t ih =>
    intro vl
    cases vl with
    | nil => rfl
    | cons u ul =>
      simp only [setVels, List.zipWith_cons_cons]
      have := ih ul
      simp only [setVels] at this
      rw [this]

theorem nearestIdx_lt (pts : List (ℝ × ℝ)) (q : ℝ × ℝ) (h : 0 < pts.length) :
    nearestIdx pts q < pts.length := by
  rw [nearestIdx]
  have key : ∀ (l : List ℕ) (b : ℕ), b < pts.length → (∀ i ∈ l, i < pts.length) →
      l.foldl (fun best i =>
        if sqDist (pts.getD i (0, 0)) q < sqDist (pts.getD best (0, 0)) q then i
        else best) b < pts.length := by
    intro l
    induction l with
    | nil => intro b hb _; exact hb
    | cons i rest ih =>
      intro b hb hl
      rw [List.foldl_cons]
      refine ih _ ?_ (fun j hj => hl j (List.mem_cons_of_mem i hj))
      split
      · exact hl i (List.mem_cons_self i rest)
      · exact hb
  exact key _ 0 h (fun i hi => List.mem_range.mp hi)

theorem sqrt_eval {x y : ℝ} (hy : 0 ≤ y) (h : x = y * y) : Real.sqrt x = y := by
  rw [h]
  exact Real.sqrt_mul_self hy

theorem segDl2_nonneg (P : List Pos3) (i : ℕ) : 0 ≤ segDl2 P i := by
  rw [segDl2, dl2]
  exact Real.sqrt_nonneg _

theorem keepStep_Q (P : List Pos3) (T : ℝ) (c : ℝ) (i : ℕ) :
    keepStep P T c i = T ∨ (0 ≤ keepStep P T c i ∧ keepStep P T c i ≤ T) := by
  rw [keepStep]
  rcases le_total T (Real.sqrt (c * c + 2 * COMFORT_ACCEL * segDl2 P i)) with hle | hle
  · left
    exact min_eq_left hle
  · right
    rw [min_eq_right hle]
    exact ⟨Real.sqrt_nonneg _, hle⟩

theorem keepStep_ge (P : List Pos3) (T : ℝ) (c : ℝ) (i : ℕ)
    (hQ : c = T ∨ (0 ≤ c ∧ c ≤ T)) : c ≤ keepStep P T c i := by
  have hseg : 0 ≤ 2 * COMFORT_ACCEL * segDl2 P i :=
    mul_nonneg (by norm_num [COMFORT_ACCEL]) (segDl2_nonneg P i)
  rw [keepStep]
  rcases hQ with hQ | hQ
  · subst hQ
    refine le_min le_rfl ?_
    rcases le_or_lt c 0 with hc | hc
    · exact hc.trans (Real.sqrt_nonneg _)
    · calc c = Real.sqrt (c * c) := (Real.sqrt_mul_self hc.le).symm
        _ ≤ Real.sqrt (c * c + 2 * COMFORT_ACCEL * segDl2 P i) :=
          Real.sqrt_le_sqrt (by linarith)
  · refine le_min hQ.2 ?_
    calc c = Real.sqrt (c * c) := (Real.sqrt_mul_self hQ.1).symm
      _ ≤ Real.sqrt (c * c + 2 * COMFORT_ACCEL * segDl2 P i) :=
        Real.sqrt_le_sqrt (by linarith)

theorem keepVels_length (P : List Pos3) (T v : ℝ) :
    (keepVels P T v).length = P.length := by
  rw [keepVels, velWalk_length, List.length_range]

theorem stopVels_length (P : List Pos3) (a v : ℝ) :
    (stopVels P a v).length = P.length := by
  rw [stopVels, velWalk_length, List.length_range]

/-! ## Claim C1 -/

/-- Claim C1: constructing the `WaypointUpdater` node faults before any
planning tick runs — `__init__` subscribes to `/vehicle/dbw_enabled` with
handler `self.dbw_cb` (line 72), but the class defines no method `dbw_cb`,
so evaluating the constructor raises `AttributeError` before `self.loop()`
is reached. -/
theorem C1_init_missing_dbw_cb :
    waypointUpdaterInit = InitOutcome.attrError UpdaterAttr.dbw_cb
      ∧ UpdaterAttr.dbw_cb ∉ waypointUpdaterMethods := by
  exact ⟨rfl, by decide⟩

/-! ## Claim C2 -/

/-- Claim C2: for every route of size at least 3 and every query point,
`get_closest_waypoint_idx` returns the index of the spec's brute-force
nearest-ahead computation: nearest waypoint `c`, dot product of
`(c - previous)` with `(vehiclePos - c)`, advancing to `(c + 1) mod n` when
positive, with cyclic wrapping correct at both ends of the route. -/
theorem C2_locator_matches_nearest_ahead_spec (pts : List (ℝ × ℝ)) (q : ℝ × ℝ)
    (h : 3 ≤ pts.length) :
    get_closest_waypoint_idx pts q = nearestAheadIndex pts q := by
  have hn : 0 < pts.length := by omega
  have hlt : nearestIdx pts q < pts.length := nearestIdx_lt pts q hn
  have hprev : pyGet pts ((nearestIdx pts q : ℤ) - 1) (0, 0)
      = pts.getD ((nearestIdx pts q + pts.length - 1) % pts.length) (0, 0) := by
    cases hc : nearestIdx pts q with
    | zero =>
      rw [pyGet, if_pos (by norm_num : (((0:ℕ) : ℤ) - 1) < 0)]
      have hmod : (0 + pts.length - 1) % pts.length = 0 + pts.length - 1 :=
        Nat.mod_eq_of_lt (by omega)
      rw [hmod]
      congr 1
      omega
    | succ k =>
      rw [hc] at hlt
      rw [pyGet, if_neg (by push_cast; omega)]
      have hmod : (k + 1 + pts.length - 1) % pts.length = k := by
        have he : k + 1 + pts.length - 1 = k + pts.length := by omega
        rw [he, Nat.add_mod_right]
        exact Nat.mod_eq_of_lt (by omega)
      rw [hmod]
      congr 1
      omega
  simp only [get_closest_waypoint_idx, nearestAheadIndex]
  rw [hprev]

/-- Witness for claim C2 on the demo route. -/
theorem C2_locator_witness :
    3 ≤ demo2d.length
      ∧ get_closest_waypoint_idx demo2d (1, 0) = nearestAheadIndex demo2d (1, 0) :=
  ⟨by decide, C2_locator_matches_nearest_ahead_spec demo2d (1, 0) (by decide)⟩

/-! ## Claim C5 -/

/-- Claim C5: for every horizon slice, current velocity, and cruise target,
the velocities written by `generate_keep_trajectory` are monotonically
non-decreasing and every element is at most the configured cruise velocity
`TARGET_V`. -/
theorem C5_keep_trajectory_monotone_capped (TARGET_V v : ℝ) (wps : List Waypoint) :
    List.Chain' (· ≤ ·) ((generate_keep_trajectory TARGET_V v wps).map Waypoint.vel)
      ∧ ∀ x ∈ (generate_keep_trajectory TARGET_V v wps).map Waypoint.vel,
          x ≤ TARGET_V := by
  have hlen : (keepVels (wps.map Waypoint.pos) TARGET_V v).length = wps.length := by
    rw [keepVels_length, List.length_map]
  rw [generate_keep_trajectory, setVels_map_vel _ _ hlen]
  constructor
  · exact velWalk_chain _ (fun c => c = TARGET_V ∨ (0 ≤ c ∧ c ≤ TARGET_V)) _
      (fun c i => keepStep_Q _ _ c i) (fun c i hc => keepStep_ge _ _ c i hc) _ _
  · intro x hx
    rcases velWalk_mem _ (fun c => c = TARGET_V ∨ (0 ≤ c ∧ c ≤ TARGET_V))
        (fun c i => keepStep_Q _ _ c i) _ _ x hx with h | h
    · exact le_of_eq h
    · exact h.2

/-! ## Claim C9 -/

/-- Claim C9: the trajectory generators are idempotent — re-running a
generator on its own output (the situation the Python code creates, since
`set_waypoint_velocity` mutates the shared waypoint objects while positions
are never written) with the same scalar inputs reproduces exactly the same
trajectory, and for the stop generator the same returned deceleration; no
hidden mutable state influences the second call. -/
theorem C9_trajectory_generator_idempotent (T v stop_x stop_y sd : ℝ) (p : Pos3)
    (wps : List Waypoint) :
    generate_keep_trajectory T v (generate_keep_trajectory T v wps)
        = generate_keep_trajectory T v wps
      ∧ (generate_stop_trajectory v p stop_x stop_y wps sd).bind
          (fun r => generate_stop_trajectory v p stop_x stop_y r.2 sd)
        = generate_stop_trajectory v p stop_x stop_y wps sd := by
  constructor
  · have hlen : (keepVels (wps.map Waypoint.pos) T v).length = wps.length := by
      rw [keepVels_length, List.length_map]
    have hpos : (generate_keep_trajectory T v wps).map Waypoint.pos
        = wps.map Waypoint.pos := by
      rw [generate_keep_trajectory]
      exact setVels_map_pos _ _ hlen
    calc generate_keep_trajectory T v (generate_keep_trajectory T v wps)
        = setVels (generate_keep_trajectory T v wps)
            (keepVels ((generate_keep_trajectory T v wps).map Waypoint.pos) T v) := rfl
      _ = setVels (setVels wps (keepVels (wps.map Waypoint.pos) T v))
            (keepVels (wps.map Waypoint.pos) T v) := by
          rw [hpos, generate_keep_trajectory]
      _ = setVels wps (keepVels (wps.map Waypoint.pos) T v) := setVels_setVels _ _
      _ = generate_keep_trajectory T v wps := rfl
  · cases hE : stopAccel v p stop_x stop_y sd with
    | error e =>
      rw [generate_stop_trajectory, hE]
      rfl
    | ok a =>
      have hlen : (stopVels (wps.map Waypoint.pos) a v).length = wps.length := by
        rw [stopVels_length, List.length_map]
      rw [generate_stop_trajectory, hE]
      simp only [Except.map, Except.bind]
      rw [generate_stop_trajectory, hE]
      simp only [Except.map]
      rw [setVels_map_pos _ _ hlen, setVels_setVels]

/-! ## Stop-trajectory lemmas -/

theorem stopStep_nonneg (P : List Pos3) (a c : ℝ) (i : ℕ) : 0 ≤ stopStep P a c i :=
  Real.sqrt_nonneg _

theorem stopStep_le (P : List Pos3) (a : ℝ) (ha : 0 ≤ a) (c : ℝ) (hc : 0 ≤ c) (i : ℕ) :
    stopStep P a c i ≤ c := by
  rw [stopStep]
  have hseg : 0 ≤ 2 * a * segDl2 P i :=
    mul_nonneg (by linarith) (segDl2_nonneg P i)
  have h1 : max 0 (c * c - 2 * a * segDl2 P i) ≤ c * c :=
    max_le (mul_self_nonneg c) (by linarith)
  calc Real.sqrt (max 0 (c * c - 2 * a * segDl2 P i)) ≤ Real.sqrt (c * c) :=
      Real.sqrt_le_sqrt h1
    _ = c := Real.sqrt_mul_self hc

theorem stopAccel_ok {v : ℝ} {p : Pos3} {stop_x stop_y sd a : ℝ}
    (h : stopAccel v p stop_x stop_y sd = Except.ok a) :
    a = 1 ∨ (v ≠ 0 ∧ a = min COMFORT_DECEL (v / max 0.001 (2 * sd / v))) := by
  simp only [stopAccel] at h
  split at h
  · left
    injection h with h
    exact h.symm
  · right
    by_cases hv : v = 0
    · rw [pydiv, if_pos hv] at h
      simp [Except.bind] at h
    · refine ⟨hv, ?_⟩
      rw [pydiv, if_neg hv] at h
      simp only [Except.bind] at h
      have hden : max (0.001:ℝ) (2 * sd / v) ≠ 0 :=
        ne_of_gt (lt_of_lt_of_le (by norm_num) (le_max_left _ _))
      rw [pydiv, if_neg hden] at h
      simp only [Except.map] at h
      injection h with h
      exact h.symm

theorem generate_stop_ok {v : ℝ} {p : Pos3} {stop_x stop_y sd a : ℝ}
    {wps traj : List Waypoint}
    (h : generate_stop_trajectory v p stop_x stop_y wps sd = Except.ok (a, traj)) :
    stopAccel v p stop_x stop_y sd = Except.ok a
      ∧ traj = setVels wps (stopVels (wps.map Waypoint.pos) a v) := by
  rw [generate_stop_trajectory] at h
  cases hE : stopAccel v p stop_x stop_y sd with
  | error e =>
    rw [hE] at h
    simp [Except.map] at h
  | ok a0 =>
    rw [hE] at h
    simp only [Except.map] at h
    injection h with h
    have h1 := congrArg Prod.fst h
    have h2 := congrArg Prod.snd h
    simp only at h1 h2
    subst h1
    exact ⟨rfl, h2.symm⟩

theorem stop_a_bounds {v : ℝ} {p : Pos3} {stop_x stop_y sd a : ℝ}
    (hv : 0 ≤ v) (h : stopAccel v p stop_x stop_y sd = Except.ok a) :
    0 ≤ a ∧ a ≤ COMFORT_DECEL := by
  rcases stopAccel_ok h with h1 | ⟨hv0, h1⟩
  · subst h1
    constructor <;> norm_num [COMFORT_DECEL]
  · subst h1
    have hden : (0:ℝ) < max 0.001 (2 * sd / v) :=
      lt_of_lt_of_le (by norm_num) (le_max_left _ _)
    exact ⟨le_min (by norm_num [COMFORT_DECEL]) (div_nonneg hv hden.le),
      min_le_left _ _⟩

theorem cumDl_succ (P : List Pos3) (k : ℕ) :
    cumDl P (k + 1) = cumDl P k + segDl2 P (k + 1) := Finset.sum_range_succ _ _

theorem max_zero_sub (X y : ℝ) (hy : 0 ≤ y) :
    max 0 (max 0 X - y) = max 0 (X - y) := by
  rcases le_or_lt X 0 with hX | hX
  · rw [max_eq_left hX, max_eq_left (by linarith : X - y ≤ 0),
      max_eq_left (by linarith : (0:ℝ) - y ≤ 0)]
  · rw [max_eq_right hX.le]

theorem velWalk_stop_invariant (P : List Pos3) (a v : ℝ) (ha : 0 ≤ a) :
    ∀ (m s : ℕ),
      velWalk (stopStep P a) (Real.sqrt (max 0 (v * v - 2 * a * cumDl P s)))
          (List.range' (s + 1) m)
        = (List.range' (s + 1) m).map
            (fun k => Real.sqrt (max 0 (v * v - 2 * a * cumDl P k))) := by
  intro m
  induction m with
  | zero => intro s; rfl
  | succ t ih =>
    intro s
    rw [List.range'_succ, velWalk, List.map_cons]
    have hstep : stopStep P a (Real.sqrt (max 0 (v * v - 2 * a * cumDl P s))) (s + 1)
        = Real.sqrt (max 0 (v * v - 2 * a * cumDl P (s + 1))) := by
      rw [stopStep, Real.mul_self_sqrt (le_max_left _ _)]
      rw [max_zero_sub _ _ (mul_nonneg (mul_nonneg (by norm_num) ha) (segDl2_nonneg P (s + 1)))]
      congr 1
      rw [cumDl_succ]
      ring_nf
    rw [hstep]
    have := ih (s + 1)
    rw [this]

/-- Closed form of the stop-trajectory velocities: the velocity written at
slice index `k` is `sqrt(max(0, v² - 2·a·cumDl(k)))`. -/
theorem stopVels_eq_map (P : List Pos3) (a v : ℝ) (ha : 0 ≤ a) :
    stopVels P a v
      = (List.range P.length).map
          (fun k => Real.sqrt (max 0 (v * v - 2 * a * cumDl P k))) := by
  rw [stopVels]
  cases hn : P.length with
  | zero => rfl
  | succ m =>
    rw [List.range_eq_range', List.range'_succ, velWalk, List.map_cons]
    have h0 : stopStep P a v 0 = Real.sqrt (max 0 (v * v - 2 * a * cumDl P 0)) := by
      rw [stopStep]
      congr 3
      rw [cumDl, Finset.sum_range_one]
    rw [h0]
    have := velWalk_stop_invariant P a v ha m 0
    simpa using this

/-! ## Claim C3 (code bug) -/

/-- Claim C3 is violated by the code: with current velocity exactly 0 and
the vehicle 5 m (hence at least 3 m) from the stop line, the kinematic
branch of `generate_stop_trajectory` evaluates `t = (2*stop_dist)/(self.v)`
— a division whose denominator is *not* clamped — and Python raises
`ZeroDivisionError`.  The embedded computation faults accordingly. -/
theorem C3_stop_trajectory_zero_velocity_fault :
    generate_stop_trajectory 0 demoVehicle 5 0 [] 5 = Except.error ()
      ∧ (3:ℝ) ≤ Real.sqrt ((demoVehicle.x - 5) ^ 2 + (demoVehicle.y - 0) ^ 2) := by
  have hs : Real.sqrt ((demoVehicle.x - 5) ^ 2 + (demoVehicle.y - 0) ^ 2) = 5 := by
    rw [show ((demoVehicle.x - 5) ^ 2 + (demoVehicle.y - 0) ^ 2) = (25:ℝ) by
      simp [demoVehicle]; norm_num]
    exact sqrt_eval (by norm_num) (by norm_num)
  constructor
  · rw [generate_stop_trajectory]
    simp only [stopAccel]
    rw [hs, if_neg (by norm_num : ¬(5:ℝ) < 3)]
    rw [pydiv, if_pos rfl]
    rfl
  · rw [hs]
    norm_num

/-! ## Demo evaluation of the stop generator -/

theorem demo_segs :
    segDl2 (demoWps.map Waypoint.pos) 0 = 4
      ∧ segDl2 (demoWps.map Waypoint.pos) 1 = 4
      ∧ segDl2 (demoWps.map Waypoint.pos) 2 = 4
      ∧ segDl2 (demoWps.map Waypoint.pos) 3 = 4 := by
  have h16 : Real.sqrt 16 = 4 := sqrt_eval (by norm_num) (by norm_num)
  have hmap : demoWps.map Waypoint.pos
      = [⟨0, 0, 0⟩, ⟨4, 0, 0⟩, ⟨4, 4, 0⟩, ⟨0, 4, 0⟩] := by simp [demoWps]
  refine ⟨?_, ?_, ?_, ?_⟩ <;> rw [hmap]
  · have he : segDl2 [⟨0, 0, 0⟩, ⟨4, 0, 0⟩, ⟨4, 4, 0⟩, ⟨0, 4, 0⟩] 0
        = dl2 ⟨0, 4, 0⟩ ⟨0, 0, 0⟩ := rfl
    rw [he, dl2]
    norm_num [h16]
  · have he : segDl2 [⟨0, 0, 0⟩, ⟨4, 0, 0⟩, ⟨4, 4, 0⟩, ⟨0, 4, 0⟩] 1
        = dl2 ⟨0, 0, 0⟩ ⟨4, 0, 0⟩ := rfl
    rw [he, dl2]
    norm_num [h16]
  · have he : segDl2 [⟨0, 0, 0⟩, ⟨4, 0, 0⟩, ⟨4, 4, 0⟩, ⟨0, 4, 0⟩] 2
        = dl2 ⟨4, 0, 0⟩ ⟨4, 4, 0⟩ := rfl
    rw [he, dl2]
    norm_num [h16]
  · have he : segDl2 [⟨0, 0, 0⟩, ⟨4, 0, 0⟩, ⟨4, 4, 0⟩, ⟨0, 4, 0⟩] 3
        = dl2 ⟨4, 4, 0⟩ ⟨0, 4, 0⟩ := rfl
    rw [he, dl2]
    norm_num [h16]

theorem demo_stopVels :
    stopVels (demoWps.map Waypoint.pos) 3 10
      = [Real.sqrt 76, Real.sqrt 52, Real.sqrt 28, 2] := by
  obtain ⟨h0, h1, h2, h3⟩ := demo_segs
  have hlen : (demoWps.map Waypoint.pos).length = 4 := by simp [demoWps]
  rw [stopVels, hlen]
  rw [show List.range 4 = [0, 1, 2, 3] from by decide]
  simp only [velWalk]
  have e0 : stopStep (demoWps.map Waypoint.pos) 3 10 0 = Real.sqrt 76 := by
    rw [stopStep, h0,
      show (10:ℝ) * 10 - 2 * 3 * 4 = 76 by norm_num,
      max_eq_right (by norm_num : (0:ℝ) ≤ 76)]
  rw [e0]
  have e1 : stopStep (demoWps.map Waypoint.pos) 3 (Real.sqrt 76) 1 = Real.sqrt 52 := by
    rw [stopStep, h1, Real.mul_self_sqrt (by norm_num : (0:ℝ) ≤ 76),
      show (76:ℝ) - 2 * 3 * 4 = 52 by norm_num,
      max_eq_right (by norm_num : (0:ℝ) ≤ 52)]
  rw [e1]
  have e2 : stopStep (demoWps.map Waypoint.pos) 3 (Real.sqrt 52) 2 = Real.sqrt 28 := by
    rw [stopStep, h2, Real.mul_self_sqrt (by norm_num : (0:ℝ) ≤ 52),
      show (52:ℝ) - 2 * 3 * 4 = 28 by norm_num,
      max_eq_right (by norm_num : (0:ℝ) ≤ 28)]
  rw [e2]
  have e3 : stopStep (demoWps.map Waypoint.pos) 3 (Real.sqrt 28) 3 = 2 := by
    rw [stopStep, h3, Real.mul_self_sqrt (by norm_num : (0:ℝ) ≤ 28),
      show (28:ℝ) - 2 * 3 * 4 = 4 by norm_num,
      max_eq_right (by norm_num : (0:ℝ) ≤ 4)]
    exact sqrt_eval (by norm_num) (by norm_num)
  rw [e3]

/-- Evaluation of the stop generator on the demo route at `v = 10`:
`stop_line_dist = 4` (kinematic branch), `t = 24/10`, `a = min(3, 25/6) = 3`,
and the written velocities are `[√76, √52, √28, 2]`. -/
theorem stop_demo_eval :
    generate_stop_trajectory 10 demoVehicle 0 4 demoWps 12
      = Except.ok (3, demoStopTraj) := by
  have hline : Real.sqrt ((demoVehicle.x - 0) ^ 2 + (demoVehicle.y - 4) ^ 2) = 4 := by
    rw [show ((demoVehicle.x - 0) ^ 2 + (demoVehicle.y - 4) ^ 2) = (16:ℝ) by
      simp [demoVehicle]; norm_num]
    exact sqrt_eval (by norm_num) (by norm_num)
  have haccel : stopAccel 10 demoVehicle 0 4 12 = Except.ok 3 := by
    simp only [stopAccel]
    rw [hline, if_neg (by norm_num : ¬(4:ℝ) < 3)]
    rw [pydiv, if_neg (by norm_num : (10:ℝ) ≠ 0)]
    simp only [Except.bind]
    rw [show max (0.001:ℝ) (2 * 12 / 10) = 2 * 12 / 10 from
      max_eq_right (by norm_num)]
    rw [pydiv, if_neg (by norm_num : (2:ℝ) * 12 / 10 ≠ 0)]
    simp only [Except.map]
    rw [show min COMFORT_DECEL ((10:ℝ) / (2 * 12 / 10)) = 3 from by
      rw [min_eq_left (by norm_num [COMFORT_DECEL])]
      rw [COMFORT_DECEL]]
  rw [generate_stop_trajectory, haccel]
  simp only [Except.map]
  rw [demo_stopVels]
  rfl

/-! ## Claim C6 (corrected) -/

/-- Counterexample to claim C6 as stated: on the demo route with the stop
hint at slice index 3 (`stop_dist = distance(route, 0, 3) = 12`, within the
decision threshold `max(10, 10²/(2·3)) = 16.6̄`), the comfort clamp gives
`a = 3` and the written velocities are `√76, √52, √28, 2` — every one
strictly positive, so the trajectory does *not* reach 0 at or before the
stop index. -/
theorem C6_stop_reaches_zero_counterexample :
    distance demoWps 0 3 = 12
      ∧ (12:ℝ) ≤ max 10 (10 * 10 / (2 * 3))
      ∧ generate_stop_trajectory 10 demoVehicle 0 4 demoWps 12
          = Except.ok (3, demoStopTraj)
      ∧ demoStopTraj.map Waypoint.vel
          = [Real.sqrt 76, Real.sqrt 52, Real.sqrt 28, 2]
      ∧ (0:ℝ) < Real.sqrt 76 ∧ (0:ℝ) < Real.sqrt 52 ∧ (0:ℝ) < Real.sqrt 28
      ∧ (0:ℝ) < 2 := by
  have h16 : Real.sqrt 16 = 4 := sqrt_eval (by norm_num) (by norm_num)
  refine ⟨?_, by norm_num, stop_demo_eval, ?_, Real.sqrt_pos.mpr (by norm_num),
    Real.sqrt_pos.mpr (by norm_num), Real.sqrt_pos.mpr (by norm_num), by norm_num⟩
  · rw [distance, if_pos (by norm_num : 0 ≤ 3), ← Finset.range_eq_Ico]
    rw [Finset.sum_range_succ, Finset.sum_range_succ, Finset.sum_range_one]
    have e0 : seg3 demoWps 0 = 4 := by
      simp only [seg3, demoWps, List.getD, dl3]
      norm_num [h16]
    have e1 : seg3 demoWps 1 = 4 := by
      simp only [seg3, demoWps, List.getD, dl3]
      norm_num [h16]
    have e2 : seg3 demoWps 2 = 4 := by
      simp only [seg3, demoWps, List.getD, dl3]
      norm_num [h16]
    rw [e0, e1, e2]
    norm_num
  · rw [demoStopTraj, setVels_map_vel _ _ (by simp [demoWps])]

/-- Claim C6, amended: for positive current velocity the velocities written
by `generate_stop_trajectory` are monotonically non-increasing, and the
velocity at slice index `k` equals `sqrt(max(0, v² - 2·a·cumDl(k)))`, where
`cumDl` is the cumulative 2-D segment distance including the wrap-around
segment the loop uses at `i = 0`; the trajectory therefore reaches exactly
0 at or before the stop index precisely when `v² ≤ 2·a·cumDl(stopIdx)` —
which the comfort clamp `a ≤ COMFORT_DECEL` can make fail, rather than
always, as the claim states. -/
theorem C6_stop_trajectory_amended (v : ℝ) (p : Pos3) (stop_x stop_y sd a : ℝ)
    (wps traj : List Waypoint)
    (h : generate_stop_trajectory v p stop_x stop_y wps sd = Except.ok (a, traj))
    (hv : 0 < v) :
    traj.map Waypoint.vel
        = (List.range wps.length).map
            (fun k => Real.sqrt (max 0 (v * v - 2 * a * cumDl (wps.map Waypoint.pos) k)))
      ∧ List.Chain' (fun x y => y ≤ x) (traj.map Waypoint.vel) := by
  obtain ⟨hA, hT⟩ := generate_stop_ok h
  have ha : 0 ≤ a := (stop_a_bounds hv.le hA).1
  have hlen : (stopVels (wps.map Waypoint.pos) a v).length = wps.length := by
    rw [stopVels_length, List.length_map]
  subst hT
  rw [setVels_map_vel _ _ hlen]
  constructor
  · have := stopVels_eq_map (wps.map Waypoint.pos) a v ha
    rwa [List.length_map] at this
  · rw [stopVels]
    exact velWalk_chain (stopStep (wps.map Waypoint.pos) a) (fun c => 0 ≤ c)
      (fun x y => y ≤ x)
      (fun c i => stopStep_nonneg (wps.map Waypoint.pos) a c i)
      (fun c i hc => stopStep_le (wps.map Waypoint.pos) a ha c hc i) _ _

/-- Witness for the amended claim C6 at the demo input. -/
theorem C6_stop_trajectory_amended_witness :
    (0:ℝ) < 10
      ∧ (demoStopTraj.map Waypoint.vel
          = (List.range demoWps.length).map
              (fun k => Real.sqrt (max 0 (10 * 10 - 2 * 3 * cumDl (demoWps.map Waypoint.pos) k)))
        ∧ List.Chain' (fun x y => y ≤ x) (demoStopTraj.map Waypoint.vel)) :=
  ⟨by norm_num,
    C6_stop_trajectory_amended 10 demoVehicle 0 4 12 3 demoWps demoStopTraj
      stop_demo_eval (by norm_num)⟩

/-! ## Claim C7 (corrected) -/

/-- Counterexample to claim C7 as stated: a stop-trajectory computation in
the kinematic branch (vehicle 4 m from the stop line) with current velocity
`-1` (a rolling-backwards snapshot; the decision rule `stop_dist = 5 ≤
max(10, 1/6)` does admit it) returns the feed-forward deceleration
`min(3, (-1)/max(0.001, -10)) = -1000`, which is not within
`[0, COMFORT_DECEL]`. -/
theorem C7_stop_decel_range_counterexample :
    (generate_stop_trajectory (-1) demoVehicle 0 4 demoWps 5).map Prod.fst
        = Except.ok (-1000)
      ∧ ¬((0:ℝ) ≤ -1000 ∧ (-1000:ℝ) ≤ COMFORT_DECEL)
      ∧ (5:ℝ) ≤ max 10 ((-1) * (-1) / (2 * 3)) := by
  have hline : Real.sqrt ((demoVehicle.x - 0) ^ 2 + (demoVehicle.y - 4) ^ 2) = 4 := by
    rw [show ((demoVehicle.x - 0) ^ 2 + (demoVehicle.y - 4) ^ 2) = (16:ℝ) by
      simp [demoVehicle]; norm_num]
    exact sqrt_eval (by norm_num) (by norm_num)
  refine ⟨?_, by norm_num [COMFORT_DECEL], by norm_num⟩
  have haccel : stopAccel (-1) demoVehicle 0 4 5 = Except.ok (-1000) := by
    simp only [stopAccel]
    rw [hline, if_neg (by norm_num : ¬(4:ℝ) < 3)]
    rw [pydiv, if_neg (by norm_num : (-1:ℝ) ≠ 0)]
    simp only [Except.bind]
    rw [show max (0.001:ℝ) (2 * 5 / (-1)) = 0.001 from max_eq_left (by norm_num)]
    rw [pydiv, if_neg (by norm_num : (0.001:ℝ) ≠ 0)]
    simp only [Except.map]
    rw [show min COMFORT_DECEL ((-1:ℝ) / 0.001) = -1000 from by
      rw [min_eq_right (by norm_num [COMFORT_DECEL])]
      norm_num]
  rw [generate_stop_trajectory, haccel]
  rfl

/-- Claim C7, amended: for every stop-trajectory computation that completes
(no division-by-zero fault) with *nonnegative* current velocity — both the
near-line branch, which returns the fixed value 1, and the kinematic
branch — the returned feed-forward deceleration lies within
`[0, COMFORT_DECEL]`; for negative current velocity the kinematic branch
can return a negative value (see the counterexample). -/
theorem C7_stop_decel_range_amended (v : ℝ) (p : Pos3) (stop_x stop_y sd a : ℝ)
    (wps traj : List Waypoint)
    (h : generate_stop_trajectory v p stop_x stop_y wps sd = Except.ok (a, traj))
    (hv : 0 ≤ v) :
    0 ≤ a ∧ a ≤ COMFORT_DECEL :=
  stop_a_bounds hv (generate_stop_ok h).1

/-- Evaluation of the near-line branch on an empty slice: vehicle 1 m from
the stop line, so `a = 1`. -/
theorem stop_nearline_eval :
    generate_stop_trajectory 2 demoVehicle 1 0 [] 5 = Except.ok (1, []) := by
  have hline : Real.sqrt ((demoVehicle.x - 1) ^ 2 + (demoVehicle.y - 0) ^ 2) = 1 := by
    rw [show ((demoVehicle.x - 1) ^ 2 + (demoVehicle.y - 0) ^ 2) = (1:ℝ) by
      norm_num [demoVehicle]]
    exact Real.sqrt_one
  rw [generate_stop_trajectory]
  simp only [stopAccel]
  rw [hline, if_pos (by norm_num : (1:ℝ) < 3)]
  rfl

/-- Witness for the amended claim C7 at a near-line input. -/
theorem C7_stop_decel_range_amended_witness :
    (0:ℝ) ≤ 2 ∧ ((0:ℝ) ≤ 1 ∧ (1:ℝ) ≤ COMFORT_DECEL) :=
  ⟨by norm_num,
    C7_stop_decel_range_amended 2 demoVehicle 1 0 5 1 [] [] stop_nearline_eval
      (by norm_num)⟩

/-! ## Claim C8 -/

theorem getD_drop {α : Type} (d : α) :
    ∀ (l : List α) (k i : ℕ), (l.drop k).getD i d = l.getD (k + i) d := by
  intro l
  induction l with
  | nil =>
    intro k i
    rw [List.drop_nil]
    cases i <;> rfl
  | cons a t ih =>
    intro k i
    cases k with
    | zero => rw [List.drop_zero, Nat.zero_add]
    | succ m =>
      rw [List.drop_succ_cons, ih m i]
      have he : m + 1 + i = (m + i) + 1 := by omega
      rw [he, List.getD_cons_succ]

theorem getD_take {α : Type} (d : α) :
    ∀ (l : List α) (k i : ℕ), i < k → (l.take k).getD i d = l.getD i d := by
  intro l
  induction l with
  | nil => intro k i _; rw [List.take_nil]
  | cons a t ih =>
    intro k i hik
    cases k with
    | zero => omega
    | succ m =>
      rw [List.take_succ_cons]
      cases i with
      | zero => rfl
      | succ j =>
        rw [List.getD_cons_succ, List.getD_cons_succ]
        exact ih m j (by omega)

theorem getD_map_pos :
    ∀ (l : List Waypoint) (i : ℕ),
      (l.map Waypoint.pos).getD i origin3 = (l.getD i defaultWp).pos := by
  intro l
  induction l with
  | nil => intro i; rfl
  | cons a t ih =>
    intro i
    cases i with
    | zero => rfl
    | succ j =>
      rw [List.map_cons, List.getD_cons_succ, List.getD_cons_succ]
      exact ih j

theorem pathLength_eq_sum :
    ∀ l : List Pos3,
      pathLength l = ∑ i in Finset.range (l.length - 1),
        dl3 (l.getD i origin3) (l.getD (i + 1) origin3) := by
  intro l
  induction l with
  | nil => rw [pathLength]; rfl
  | cons a t ih =>
    cases t with
    | nil => rw [pathLength]; rfl
    | cons b r =>
      rw [pathLength, ih]
      have hlen : (a :: b :: r).length - 1 = ((b :: r).length - 1) + 1 := by
        simp only [List.length_cons]
        omega
      rw [hlen, Finset.sum_range_succ']
      simp only [List.getD_cons_succ, List.getD_cons_zero]
      exact add_comm _ _

/-- Claim C8: for every route and indices `j < i` (with `i` a valid route
index), `distance(route, i, j)` equals the polyline length from waypoint
`i` to the route end plus the polyline length from the route start to
waypoint `j`. -/
theorem C8_distance_wraparound (wps : List Waypoint) (wp1 wp2 : ℕ)
    (h1 : wp2 < wp1) (h2 : wp1 < wps.length) :
    distance wps wp1 wp2
      = pathLength ((wps.map Waypoint.pos).drop wp1)
        + pathLength ((wps.map Waypoint.pos).take (wp2 + 1)) := by
  rw [distance, if_neg (by omega)]
  congr 1
  · rw [Finset.sum_Ico_eq_sum_range, pathLength_eq_sum,
      List.length_drop, List.length_map]
    refine Finset.sum_congr (congrArg Finset.range (by omega)) ?_
    intro i hi
    rw [getD_drop, getD_drop, getD_map_pos, getD_map_pos, seg3, Nat.add_assoc]
  · rw [pathLength_eq_sum]
    have hlen : ((wps.map Waypoint.pos).take (wp2 + 1)).length = wp2 + 1 := by
      rw [List.length_take, List.length_map]
      omega
    rw [hlen]
    simp only [Nat.add_sub_cancel]
    refine Finset.sum_congr rfl ?_
    intro i hi
    have hi2 := Finset.mem_range.mp hi
    rw [getD_take _ _ _ _ (by omega), getD_take _ _ _ _ (by omega),
      getD_map_pos, getD_map_pos, seg3]

/-- Witness for claim C8 on the demo route at `i = 2`, `j = 1`. -/
theorem C8_distance_wraparound_witness :
    1 < 2 ∧ 2 < demoWps.length
      ∧ distance demoWps 2 1
        = pathLength ((demoWps.map Waypoint.pos).drop 2)
          + pathLength ((demoWps.map Waypoint.pos).take (1 + 1)) :=
  ⟨by norm_num, by simp [demoWps],
    C8_distance_wraparound demoWps 2 1 (by norm_num) (by simp [demoWps])⟩

/-! ## Claim C4 -/

/-- Claim C4: whenever route and pose are present, a planning tick with a
stop hint set (`stop_waypoint ≠ -1`) produces a stop trajectory if and only
if the cumulative route distance from the current nearest index to the stop
index is at most `max(10, v²/(2·3))` (the code computes the threshold as
`0.5·COMFORT_DECEL·(v/COMFORT_DECEL)²`, which equals `v²/(2·COMFORT_DECEL)`);
otherwise — and whenever no stop hint is set — it produces a keep-speed
trajectory with the published feed-forward sentinel `-1`. -/
theorem C4_decision_rule (s : UpdaterState) (wps : List Waypoint) (p : Pos3)
    (h1 : s.waypoints = some wps) (h2 : s.vehicle_position = some p)
    (h3 : wps ≠ []) :
    plan s =
      (let next_wp := get_closest_waypoint_idx
          (wps.map fun w => (w.pos.x, w.pos.y)) (p.x, p.y)
       let final_waypoints := (wps.drop next_wp).take LOOKAHEAD_WPS
       let stop_dist := distance wps next_wp s.stop_waypoint.toNat
       if s.stop_waypoint ≠ -1 ∧ stop_dist ≤ max 10 (s.v ^ 2 / (2 * 3)) then
         match generate_stop_trajectory s.v p s.stop_x s.stop_y final_waypoints
             stop_dist with
         | Except.ok (a, traj) => PlanResult.planned a traj
         | Except.error _ => PlanResult.failed
       else
         PlanResult.planned (-1)
           (generate_keep_trajectory s.TARGET_V s.v final_waypoints)) := by
  have harith : 0.5 * COMFORT_DECEL * (s.v / COMFORT_DECEL) * (s.v / COMFORT_DECEL)
      = s.v ^ 2 / (2 * 3) := by
    rw [COMFORT_DECEL]
    ring
  have hne : wps.isEmpty = false := by
    cases wps with
    | nil => exact absurd rfl h3
    | cons a t => rfl
  unfold plan
  rw [h1, h2]
  simp only [hne, Bool.false_eq_true, if_false, MIN_LOOKAHEAD_DIST, harith]
  by_cases hsw : s.stop_waypoint = -1
  · simp [hsw]
  · simp only [hsw, ne_eq, not_false_eq_true, if_true, true_and]

/-- Witness for claim C4 at the demo planning state. -/
theorem C4_decision_rule_witness :
    demoState.waypoints = some demoWps
      ∧ demoState.vehicle_position = some demoVehicle
      ∧ demoWps ≠ []
      ∧ plan demoState =
        (let next_wp := get_closest_waypoint_idx
            (demoWps.map fun w => (w.pos.x, w.pos.y)) (demoVehicle.x, demoVehicle.y)
         let final_waypoints := (demoWps.drop next_wp).take LOOKAHEAD_WPS
         let stop_dist := distance demoWps next_wp demoState.stop_waypoint.toNat
         if demoState.stop_waypoint ≠ -1
             ∧ stop_dist ≤ max 10 (demoState.v ^ 2 / (2 * 3)) then
           match generate_stop_trajectory demoState.v demoVehicle demoState.stop_x
               demoState.stop_y final_waypoints stop_dist with
           | Except.ok (a, traj) => PlanResult.planned a traj
           | Except.error _ => PlanResult.failed
         else
           PlanResult.planned (-1)
             (generate_keep_trajectory demoState.TARGET_V demoState.v final_waypoints)) :=
  ⟨rfl, rfl, by simp [demoWps],
    C4_decision_rule demoState demoWps demoVehicle rfl rfl (by simp [demoWps])⟩

/-! ## Claim C10 -/

/-- Claim C10: at every control-loop tick at which `dbw_enabled` is false,
the actuation node publishes no throttle, brake, or steering command for
that tick — the command computation and `publish` call are guarded by the
flag. -/
theorem C10_dbw_disabled_publishes_nothing
    (control : Bool → ℝ → ℝ → ℝ → ℝ → ℝ → ℝ × ℝ × ℝ) (now : ℝ) (s : DBWState)
    (h : s.dbw_enabled = false) :
    (dbwTick control now s).2 = [] := by
  simp only [dbwTick]
  split
  · simp [h]
  · simp [h]

/-- Witness for claim C10: a disabled tick publishes nothing. -/
theorem C10_dbw_disabled_witness :
    demoDBWState.dbw_enabled = false ∧ (dbwTick demoControl 1 demoDBWState).2 = [] :=
  ⟨rfl, C10_dbw_disabled_publishes_nothing demoControl 1 demoDBWState rfl⟩

end CarND
